import Mathlib

/-!
Verification of the AV signal speed-advisory core of this repository
(src/monitoring/integrated_monitor.py, class AVSignalPredictor and the
per-vehicle application loop of IntegratedMonitor).

The Python functions are shallowly embedded as Lean functions over ℚ
(Python floats are modelled by exact rationals), lists of phases, and
explicit state records.  External simulator queries (traci calls) are
modelled as explicit parameters; the one external write (setSpeed) is
modelled as an event appended to a list.
-/

namespace AVSignalPredictor

/-- Embedding of AVSignalPredictor.calculate_speed (integrated_monitor.py).
The local constants are C = 90 (cycle length, s), vj = 60 (legal speed,
km/h) and the threshold T = G * P.  This helper is the value of the local
variable v after the branch ladder and before the final sanity clamp:
if R <= T then vj, elif (L/S)*3.6 <= vj then that, elif (L/R)*3.6 <= vj
then vj, else (L/(S+C))*3.6 when S+C > 0.1 and vj otherwise. -/
def speed_branches (L P S R G : ℚ) : ℚ :=
  if R ≤ G * P then 60
  else if (L / S) * 3.6 ≤ 60 then (L / S) * 3.6
  else if (L / R) * 3.6 ≤ 60 then 60
  else if S + 90 > 0.1 then (L / (S + 90)) * 3.6
  else 60

/-- Embedding of AVSignalPredictor.calculate_speed: first the guard
(S <= 0.1 or R <= 0.1 or L <= 0.1 or G <= 0 returns vj = 60), then the
branch ladder, then the sanity clamp (v <= 0 or v > 100 returns vj).
The Python function is total on floats and raises no exception; the
embedding is a total function. -/
def calculate_speed (L P S R G : ℚ) : ℚ :=
  if S ≤ 0.1 ∨ R ≤ 0.1 ∨ L ≤ 0.1 ∨ G ≤ 0 then 60
  else
    let v := speed_branches L P S R G
    if v ≤ 0 ∨ v > 100 then 60 else v

end AVSignalPredictor

/-- Decimal digit accumulator for the integer parser used to model
Python's int() on the small numeric id strings of this code base. -/
def digits_aux : List Char → Nat → Option Nat
  | [], acc => some acc
  | c :: tl, acc =>
    if c.isDigit then digits_aux tl (acc * 10 + (c.toNat - 48)) else none

/-- A nonempty all-digit character list parsed as a natural number. -/
def digits_to_nat? : List Char → Option Nat
  | [] => none
  | cs => digits_aux cs 0

/-- A decimal integer with an optional leading minus sign; none models
the ValueError that int() raises on anything else. -/
def parse_int? : List Char → Option Int
  | '-' :: tl => (digits_to_nat? tl).map (fun n => -(n : Int))
  | cs => (digits_to_nat? cs).map (fun n => (n : Int))

namespace IntegratedMonitor

/-- The prediction_record dict built in
IntegratedMonitor.update_av_signal_monitoring, with the same keys. -/
structure PredictionRecord where
  time : ℚ
  vehicle_id : String
  current_edge : String
  signal_id : String
  time_to_green : ℚ
  time_to_red : ℚ
  lane_length : ℚ
  green_duration : ℚ
  optimal_speed : ℚ
  previous_speed : ℚ
  speed_change : ℚ
  current_speed_ms : ℚ
deriving DecidableEq

/-- The mutable monitor state touched by the per-vehicle application loop:
the processed-pair tracking set av_vehicles_tracked (a set of strings
vehicle_id ++ underscore ++ edge), the prediction log
av_signal_predictions, and the external traci.vehicle.setSpeed side
effect modelled as an event list speed_writes. -/
structure AVMonitorState where
  av_vehicles_tracked : List String
  av_signal_predictions : List PredictionRecord
  speed_writes : List (String × ℚ)
deriving DecidableEq

/-- Embedding of the body of the per-vehicle loop in
IntegratedMonitor.update_av_signal_monitoring for one vehicle: skip
non-AV vehicles (is_av models the vehicle_types lookup), skip edges not
in target_road_edges, then the tracking-key membership test, then the
int(current_edge) conversion (parse_int? on the characters models the
ValueError path which continues without recording); only after all of
these does the
call to get_signal_timing_with_speed_control perform the setSpeed write,
and the record and the tracking key are appended. -/
def process_av_vehicle (is_av : Bool) (target_road_edges : List String)
    (vehicle_id current_edge : String) (record : PredictionRecord)
    (speed : ℚ) (s : AVMonitorState) : AVMonitorState :=
  if is_av = false then s
  else if current_edge ∉ target_road_edges then s
  else
    let tracking_key := vehicle_id ++ "_" ++ current_edge
    if tracking_key ∈ s.av_vehicles_tracked then s
    else
      match parse_int? current_edge.toList with
      | none => s
      | some _ =>
        { av_vehicles_tracked := s.av_vehicles_tracked ++ [tracking_key]
          av_signal_predictions := s.av_signal_predictions ++ [record]
          speed_writes := s.speed_writes ++ [(vehicle_id, speed)] }

/-- Models `tracking_key.split('_')[0]` in the cleanup at the end of
update_av_signal_monitoring: the characters of the key before its first
underscore.  For a key vehicle_id ++ underscore ++ edge this recovers
vehicle_id only when vehicle_id itself contains no underscore; for ids
such as dyn_2000 (built by add_vehicle) it yields the prefix dyn. -/
def key_vehicle_id (tracking_key : String) : String :=
  (tracking_key.toList.takeWhile (fun c => c != '_')).asString

/-- The end-of-call cleanup of update_av_signal_monitoring (its
vehicles_to_remove loops): every tracking key whose extracted vehicle id
is not among the current vehicles is removed from the tracking set. -/
def cleanup_tracked (current_vehicles : List String)
    (tracked : List String) : List String :=
  tracked.filter (fun tracking_key =>
    decide (key_vehicle_id tracking_key ∈ current_vehicles))

/-- One call of update_av_signal_monitoring restricted to a single
vehicle: the per-vehicle body followed by the end-of-call cleanup of
the tracking set against the current vehicle list. -/
def update_av_signal_monitoring_tick (is_av : Bool)
    (target_road_edges : List String) (current_vehicles : List String)
    (vehicle_id current_edge : String) (record : PredictionRecord)
    (speed : ℚ) (s : AVMonitorState) : AVMonitorState :=
  let s2 := process_av_vehicle is_av target_road_edges vehicle_id
    current_edge record speed s
  { s2 with av_vehicles_tracked :=
      cleanup_tracked current_vehicles s2.av_vehicles_tracked }

end IntegratedMonitor

namespace AVSignalPredictor

/-- One phase of a signal program as returned by
traci.trafficlight.getCompleteRedYellowGreenDefinition: a duration in
seconds and the per-direction color string (one char per controlled
direction index). -/
structure Phase where
  duration : ℚ
  state : List Char
deriving DecidableEq

/-- The test `signal_index < len(phase_state) and
phase_state[signal_index].upper() == 'G'` used in all three phase-walk
functions. -/
def phaseGreen (ph : Phase) (signal_index : Nat) : Bool :=
  decide (signal_index < ph.state.length) &&
    ((ph.state.getD signal_index ' ').toUpper == 'G')

/-- The analogous yellow test with 'Y'. -/
def phaseYellow (ph : Phase) (signal_index : Nat) : Bool :=
  decide (signal_index < ph.state.length) &&
    ((ph.state.getD signal_index ' ').toUpper == 'Y')

/-- The while loop of calculate_time_to_green for a currently green
direction: `while next_phase_idx != current_phase`, returning the
accumulator at the first green phase and time_to_next_switch when the
walk comes back to the current phase without finding one.  The loop is
embedded with explicit fuel; calculate_time_to_green passes fuel equal to
phases.length, which the walk (at most phases.length - 1 steps when
current_phase < phases.length) never exhausts. -/
def ttg_green_loop (phases : List Phase) (signal_index current_phase : Nat)
    (t : ℚ) : Nat → Nat → ℚ → ℚ
  | 0, _, _ => t
  | fuel + 1, idx, acc =>
    if idx = current_phase then t
    else
      let ph := phases.getD idx ⟨0, []⟩
      if phaseGreen ph signal_index then acc
      else ttg_green_loop phases signal_index current_phase t fuel
        ((idx + 1) % phases.length) (acc + ph.duration)

/-- The `while True` loop of calculate_time_to_green for a currently red
or yellow direction: returns the accumulator at the first green phase,
and breaks (returning the accumulator) when the index returns to the
loop's starting index after one full cycle. -/
def ttg_red_loop (phases : List Phase) (signal_index loop_start : Nat) :
    Nat → Nat → ℚ → ℚ
  | 0, _, acc => acc
  | fuel + 1, idx, acc =>
    let ph := phases.getD idx ⟨0, []⟩
    if phaseGreen ph signal_index then acc
    else
      let acc2 := acc + ph.duration
      let idx2 := (idx + 1) % phases.length
      if idx2 = loop_start then acc2
      else ttg_red_loop phases signal_index loop_start fuel idx2 acc2

/-- Embedding of AVSignalPredictor.calculate_time_to_green.  The traci
queries are passed in: current_state is getRedYellowGreenState,
current_phase is getPhase, time_to_next_switch is getNextSwitch minus
the simulation time, programs is getCompleteRedYellowGreenDefinition
(each program reduced to its phase list; the code uses programs[0]).
An empty phase list makes `(current_phase + 1) % len(phases)` raise a
ZeroDivisionError in the source, caught by the except handler which
returns 0.0; the embedding returns 0 there explicitly. -/
def calculate_time_to_green (current_state : List Char)
    (current_phase : Nat) (time_to_next_switch : ℚ)
    (programs : List (List Phase)) (signal_index : Nat) : ℚ :=
  match programs with
  | [] => 0
  | phases :: _ =>
    if signal_index < current_state.length then
      if phases.length = 0 then 0
      else if (current_state.getD signal_index ' ').toUpper = 'G' then
        ttg_green_loop phases signal_index current_phase time_to_next_switch
          phases.length ((current_phase + 1) % phases.length)
          time_to_next_switch
      else
        ttg_red_loop phases signal_index
          ((current_phase + 1) % phases.length) phases.length
          ((current_phase + 1) % phases.length) time_to_next_switch
    else 0

/-- The while loop of calculate_time_to_red for a currently red
direction: `while next_phase_idx != current_phase`; at the first green
phase it adds that phase's duration and, when the cyclically following
phase is yellow for the direction, that yellow duration too; when the
walk returns to the current phase it returns the plain accumulator. -/
def ttr_red_loop (phases : List Phase) (signal_index current_phase : Nat) :
    Nat → Nat → ℚ → ℚ
  | 0, _, acc => acc
  | fuel + 1, idx, acc =>
    if idx = current_phase then acc
    else
      let ph := phases.getD idx ⟨0, []⟩
      if phaseGreen ph signal_index then
        let acc2 := acc + ph.duration
        let yph := phases.getD ((idx + 1) % phases.length) ⟨0, []⟩
        if phaseYellow yph signal_index then acc2 + yph.duration else acc2
      else ttr_red_loop phases signal_index current_phase fuel
        ((idx + 1) % phases.length) (acc + ph.duration)

/-- Embedding of AVSignalPredictor.calculate_time_to_red, with the traci
queries passed in as for calculate_time_to_green.  Currently red walks
ttr_red_loop; currently green returns the remaining phase time plus the
immediately following yellow duration when there is one (the source's
`next_phase_idx < len(phases)` test always holds for a nonempty list);
currently yellow returns the remaining phase time; any other color
returns 0.  The ZeroDivisionError of an empty phase list (caught,
returning 0.0) is reached in the red and green branches only: the
yellow branch returns before any division. -/
def calculate_time_to_red (current_state : List Char)
    (current_phase : Nat) (time_to_next_switch : ℚ)
    (programs : List (List Phase)) (signal_index : Nat) : ℚ :=
  match programs with
  | [] => 0
  | phases :: _ =>
    if signal_index < current_state.length then
      let cs := (current_state.getD signal_index ' ').toUpper
      if cs = 'R' then
        if phases.length = 0 then 0
        else ttr_red_loop phases signal_index current_phase phases.length
          ((current_phase + 1) % phases.length) time_to_next_switch
      else if cs = 'G' then
        if phases.length = 0 then 0
        else
          let nph := phases.getD ((current_phase + 1) % phases.length) ⟨0, []⟩
          if phaseYellow nph signal_index then
            time_to_next_switch + nph.duration
          else time_to_next_switch
      else if cs = 'Y' then time_to_next_switch
      else 0
    else 0

/-- The for loop of get_green_phase_duration: the duration of the first
phase whose color for the direction is green, 0 when none exists. -/
def first_green_duration (signal_index : Nat) : List Phase → ℚ
  | [] => 0
  | ph :: tl =>
    if phaseGreen ph signal_index then ph.duration
    else first_green_duration signal_index tl

/-- Embedding of AVSignalPredictor.get_green_phase_duration: 0 when the
program list is empty, otherwise the first green phase's duration in
programs[0] (0 when no phase is green for the direction). -/
def get_green_phase_duration (programs : List (List Phase))
    (signal_index : Nat) : ℚ :=
  match programs with
  | [] => 0
  | phases :: _ => first_green_duration signal_index phases

/-- Models `int(lane.split('_')[0])` in get_signal_direction_index: the
characters before the first underscore parsed as a decimal integer
(optionally signed); none models the ValueError that the source catches
and skips. -/
def parse_lane_edge (lane : String) : Option Int :=
  parse_int? (lane.toList.takeWhile (fun c => c != '_'))

/-- The `for i, lane in enumerate(controlled_lanes)` loop of
get_signal_direction_index: the first position whose parsed edge id has
the sign matching the travel direction; parse failures are skipped but
still advance the position counter, as enumerate does. -/
def find_matching_lane : List String → Bool → Nat → Option Nat
  | [], _, _ => none
  | lane :: tl, is_pos, i =>
    match parse_lane_edge lane with
    | none => find_matching_lane tl is_pos (i + 1)
    | some lane_edge_id =>
      if (is_pos ∧ lane_edge_id > 0) ∨ (¬is_pos ∧ lane_edge_id < 0)
      then some i
      else find_matching_lane tl is_pos (i + 1)

/-- Embedding of AVSignalPredictor.get_signal_direction_index.  The
direction cache is an association list; the source's formatted string
key f-string junction_id underscore edge_id is modelled as the pair
(junction_id, edge_id).  controlled_lanes = none models a
TraCIException from traci.trafficlight.getControlledLanes (the except
branch returns 0 for positive edge ids and 2 otherwise without touching
the cache).  A found position i is stored and returned as i % 4; the
no-match default (0 positive, 2 otherwise) is stored and returned.
Returns the index together with the updated cache. -/
def get_signal_direction_index
    (direction_cache : List ((String × Int) × Nat))
    (junction_id : String) (edge_id : Int)
    (controlled_lanes : Option (List String)) :
    Nat × List ((String × Int) × Nat) :=
  let cache_key := (junction_id, edge_id)
  match direction_cache.find? (fun p => p.1 == cache_key) with
  | some p => (p.2, direction_cache)
  | none =>
    match controlled_lanes with
    | none => ((if edge_id > 0 then 0 else 2), direction_cache)
    | some lanes =>
      match find_matching_lane lanes (decide (edge_id > 0)) 0 with
      | some i => (i % 4, (cache_key, i % 4) :: direction_cache)
      | none =>
        let default_index := if edge_id > 0 then 0 else 2
        (default_index, (cache_key, default_index) :: direction_cache)

end AVSignalPredictor

/-- C1: whenever S ≤ 0.1 or R ≤ 0.1 or L ≤ 0.1 or G ≤ 0, calculate_speed
returns exactly the legal speed 60 km/h; the guard is the first test in
the function, so it takes precedence over every other branch, and the
embedding (like the Python code, which only branches and returns here)
raises no exception. -/
theorem calculate_speed_guard (L P S R G : ℚ)
    (h : S ≤ 0.1 ∨ R ≤ 0.1 ∨ L ≤ 0.1 ∨ G ≤ 0) :
    AVSignalPredictor.calculate_speed L P S R G = 60 := by
  unfold AVSignalPredictor.calculate_speed
  simp [h]

/-- Witness for C1 at S = 0 (and at G = 0 for the last disjunct). -/
theorem calculate_speed_guard_witness :
    AVSignalPredictor.calculate_speed 100 (1/2) 0 20 20 = 60 ∧
    AVSignalPredictor.calculate_speed 100 (1/2) 30 20 0 = 60 :=
  ⟨calculate_speed_guard 100 (1/2) 0 20 20 (Or.inl (by norm_num)),
   calculate_speed_guard 100 (1/2) 30 20 0
     (Or.inr (Or.inr (Or.inr (by norm_num))))⟩

/-- C2: the returned value is always strictly positive and at most 100;
whenever the value computed by the branch ladder is ≤ 0 or > 100 (and the
guard did not already fire), the clamp discards it and returns 60. -/
theorem calculate_speed_range (L P S R G : ℚ) :
    (0 < AVSignalPredictor.calculate_speed L P S R G ∧
      AVSignalPredictor.calculate_speed L P S R G ≤ 100) ∧
    (¬ (S ≤ 0.1 ∨ R ≤ 0.1 ∨ L ≤ 0.1 ∨ G ≤ 0) →
      (AVSignalPredictor.speed_branches L P S R G ≤ 0 ∨
        AVSignalPredictor.speed_branches L P S R G > 100) →
      AVSignalPredictor.calculate_speed L P S R G = 60) := by
  simp only [AVSignalPredictor.calculate_speed]
  split_ifs with h1 h2
  · exact ⟨⟨by norm_num, by norm_num⟩, fun hg _ => absurd h1 hg⟩
  · exact ⟨⟨by norm_num, by norm_num⟩, fun _ _ => rfl⟩
  · push_neg at h2
    exact ⟨⟨h2.1, h2.2⟩,
      fun _ hb => absurd hb (by push_neg; exact ⟨h2.1, h2.2⟩)⟩

/-- Witness for C2 second part: an input where the branch ladder computes
a value above 100 (L = 10000, S = 5, R = 20, G = 20, P = 1/2, so
T = 10 < R, (L/S)*3.6 = 7200 > 60, (L/R)*3.6 = 1800 > 60, and
(L/95)*3.6 > 100), hence the clamp returns 60. -/
theorem calculate_speed_range_witness :
    AVSignalPredictor.calculate_speed 10000 (1/2) 5 20 20 = 60 :=
  (calculate_speed_range 10000 (1/2) 5 20 20).2
    (by norm_num) (by norm_num [AVSignalPredictor.speed_branches])

/-- C3: when the guard passes and R > G * P, the function returns exactly
(L/S)*3.6 when that is at most 60, and exactly 60 (not (L/R)*3.6) when
(L/S)*3.6 exceeds 60 but (L/R)*3.6 is at most 60. -/
theorem calculate_speed_same_cycle (L P S R G : ℚ)
    (hS : 0.1 < S) (hR : 0.1 < R) (hL : 0.1 < L) (hG : 0 < G)
    (hRT : G * P < R) :
    ((L / S) * 3.6 ≤ 60 →
      AVSignalPredictor.calculate_speed L P S R G = (L / S) * 3.6) ∧
    (60 < (L / S) * 3.6 → (L / R) * 3.6 ≤ 60 →
      AVSignalPredictor.calculate_speed L P S R G = 60) := by
  have hguard : ¬ (S ≤ 0.1 ∨ R ≤ 0.1 ∨ L ≤ 0.1 ∨ G ≤ 0) := by
    push_neg; exact ⟨hS, hR, hL, hG⟩
  have hS0 : 0 < S := by linarith
  have hL0 : 0 < L := by linarith
  constructor
  · intro h4
    have hv : AVSignalPredictor.speed_branches L P S R G = (L / S) * 3.6 := by
      unfold AVSignalPredictor.speed_branches
      rw [if_neg (by linarith), if_pos h4]
    have hpos : 0 < (L / S) * 3.6 := by positivity
    unfold AVSignalPredictor.calculate_speed
    rw [if_neg hguard]
    simp only [hv]
    rw [if_neg (by push_neg; constructor <;> linarith)]
  · intro h4 h5
    have hv : AVSignalPredictor.speed_branches L P S R G = 60 := by
      unfold AVSignalPredictor.speed_branches
      rw [if_neg (by linarith), if_neg (by linarith), if_pos h5]
    unfold AVSignalPredictor.calculate_speed
    rw [if_neg hguard]
    simp only [hv]
    norm_num

/-- Witness for C3: L = 100, S = 10 yields exactly 36 (branch 4), and
L = 150, S = 5, R = 11 yields exactly 60 (branch 5, (L/R)*3.6 ≈ 49.1). -/
theorem calculate_speed_same_cycle_witness :
    AVSignalPredictor.calculate_speed 100 (1/2) 10 20 20 = 36 ∧
    AVSignalPredictor.calculate_speed 150 (1/2) 5 11 20 = 60 := by
  constructor
  · have h := (calculate_speed_same_cycle 100 (1/2) 10 20 20
      (by norm_num) (by norm_num) (by norm_num) (by norm_num)
      (by norm_num)).1 (by norm_num)
    rw [h]; norm_num
  · exact (calculate_speed_same_cycle 150 (1/2) 5 11 20
      (by norm_num) (by norm_num) (by norm_num) (by norm_num)
      (by norm_num)).2 (by norm_num) (by norm_num)

/-- C4: when the guard passes and R ≤ T = G * P, the function returns
exactly 60, whatever (L/S)*3.6 would compute to. -/
theorem calculate_speed_branch3 (L P S R G : ℚ)
    (hS : 0.1 < S) (hR : 0.1 < R) (hL : 0.1 < L) (hG : 0 < G)
    (hRT : R ≤ G * P) :
    AVSignalPredictor.calculate_speed L P S R G = 60 := by
  have hguard : ¬ (S ≤ 0.1 ∨ R ≤ 0.1 ∨ L ≤ 0.1 ∨ G ≤ 0) := by
    push_neg; exact ⟨hS, hR, hL, hG⟩
  have hv : AVSignalPredictor.speed_branches L P S R G = 60 := by
    unfold AVSignalPredictor.speed_branches
    rw [if_pos hRT]
  unfold AVSignalPredictor.calculate_speed
  rw [if_neg hguard]
  simp only [hv]
  norm_num

/-- Witness for C4 at the spec example L = 500, P = 1/2, G = 20, S = 50,
R = 5 (T = 10, R ≤ T). -/
theorem calculate_speed_branch3_witness :
    AVSignalPredictor.calculate_speed 500 (1/2) 50 5 20 = 60 :=
  calculate_speed_branch3 500 (1/2) 50 5 20
    (by norm_num) (by norm_num) (by norm_num) (by norm_num) (by norm_num)

/-- Counterexample for C5 as stated: at the spec example inputs L = 2000,
P = 1/2, S = 5, R = 5, G = 20 we have T = G * P = 10 and R = 5 ≤ T, so
branch 3 fires and the code returns 60, not (2000/95)*3.6 ≈ 75.8. -/
theorem calculate_speed_next_cycle_counterexample :
    AVSignalPredictor.calculate_speed 2000 (1/2) 5 5 20 = 60 ∧
    ((2000 : ℚ) / (5 + 90)) * 3.6 ≠ 60 := by
  constructor
  · norm_num [AVSignalPredictor.calculate_speed,
      AVSignalPredictor.speed_branches]
  · norm_num

/-- C5 (amended): when the guard passes, R > G * P, (L/S)*3.6 > 60 and
(L/R)*3.6 > 60, the function returns (L/(S+C))*3.6 with C = 90, falling
back to 60 when S + C ≤ 0.1 or when that value is ≤ 0 or exceeds 100
(under the guard S + C > 0.1 and the value is positive, so only the
over-100 clamp can actually fire). -/
theorem calculate_speed_next_cycle (L P S R G : ℚ)
    (hS : 0.1 < S) (hR : 0.1 < R) (hL : 0.1 < L) (hG : 0 < G)
    (hRT : G * P < R) (h4 : 60 < (L / S) * 3.6) (h5 : 60 < (L / R) * 3.6) :
    AVSignalPredictor.calculate_speed L P S R G =
      (if S + 90 ≤ 0.1 ∨ (L / (S + 90)) * 3.6 ≤ 0 ∨ 100 < (L / (S + 90)) * 3.6
       then 60 else (L / (S + 90)) * 3.6) := by
  have hguard : ¬ (S ≤ 0.1 ∨ R ≤ 0.1 ∨ L ≤ 0.1 ∨ G ≤ 0) := by
    push_neg; exact ⟨hS, hR, hL, hG⟩
  have hden : (0.1 : ℚ) < S + 90 := by linarith
  have hpos : 0 < (L / (S + 90)) * 3.6 := by
    have : (0 : ℚ) < S + 90 := by linarith
    have : (0 : ℚ) < L := by linarith
    positivity
  have hv : AVSignalPredictor.speed_branches L P S R G =
      (L / (S + 90)) * 3.6 := by
    unfold AVSignalPredictor.speed_branches
    rw [if_neg (by linarith), if_neg (by linarith), if_neg (by linarith),
      if_pos hden]
  unfold AVSignalPredictor.calculate_speed
  rw [if_neg hguard]
  simp only [hv]
  by_cases hclamp : 100 < (L / (S + 90)) * 3.6
  · rw [if_pos (Or.inr hclamp), if_pos (Or.inr (Or.inr hclamp))]
  · rw [if_neg (by push_neg; constructor <;> linarith),
      if_neg (by push_neg; refine ⟨by linarith, by linarith, by linarith⟩)]

/-- Witness for C5 (amended) with R = 12 so that R > T = 10: the result is
(2000/95)*3.6 = 1440/19 ≈ 75.8, inside the clamp. -/
theorem calculate_speed_next_cycle_witness :
    AVSignalPredictor.calculate_speed 2000 (1/2) 5 12 20 = 1440 / 19 := by
  have h := calculate_speed_next_cycle 2000 (1/2) 5 12 20
    (by norm_num) (by norm_num) (by norm_num) (by norm_num)
    (by norm_num) (by norm_num) (by norm_num)
  rw [h]; norm_num

/-- Helper: the per-vehicle body on its own is at-most-once per
(vehicle, link) pair.  First conjunct: running the body a second time
immediately after a first run on the same pair (with a possibly
different record and speed) changes nothing.  Second conjunct: the body
is a no-op on any state whose tracking set still holds the pair's key.
This is only the within-call half of the story: the end-of-call cleanup
of the tracking set can remove a live pair's key between calls, which
is what defeats the at-most-once policy across calls. -/
theorem process_av_vehicle_at_most_once (is_av : Bool)
    (target : List String) (vid edge : String)
    (r1 r2 : IntegratedMonitor.PredictionRecord) (w1 w2 : ℚ)
    (s : IntegratedMonitor.AVMonitorState) :
    IntegratedMonitor.process_av_vehicle is_av target vid edge r2 w2
        (IntegratedMonitor.process_av_vehicle is_av target vid edge r1 w1 s)
      = IntegratedMonitor.process_av_vehicle is_av target vid edge r1 w1 s ∧
    (∀ s2 : IntegratedMonitor.AVMonitorState,
      (vid ++ "_" ++ edge) ∈ s2.av_vehicles_tracked →
      IntegratedMonitor.process_av_vehicle is_av target vid edge r2 w2 s2
        = s2) := by
  have hmem : ∀ s2 : IntegratedMonitor.AVMonitorState,
      (vid ++ "_" ++ edge) ∈ s2.av_vehicles_tracked →
      IntegratedMonitor.process_av_vehicle is_av target vid edge r2 w2 s2
        = s2 := by
    intro s2 h2
    simp [IntegratedMonitor.process_av_vehicle, h2]
  refine ⟨?_, hmem⟩
  by_cases hav : is_av = false
  · simp [IntegratedMonitor.process_av_vehicle, hav]
  · by_cases htgt : edge ∈ target
    · by_cases htrk : (vid ++ "_" ++ edge) ∈ s.av_vehicles_tracked
      · have h1 : IntegratedMonitor.process_av_vehicle is_av target vid edge
            r1 w1 s = s := by
          simp [IntegratedMonitor.process_av_vehicle, htrk]
        rw [h1]
        exact hmem s htrk
      · cases hparse : parse_int? edge.data with
        | none =>
          have h1 : IntegratedMonitor.process_av_vehicle is_av target vid edge
              r1 w1 s = s := by
            simp [IntegratedMonitor.process_av_vehicle, hav, htgt, htrk,
              hparse]
          rw [h1]
          simp [IntegratedMonitor.process_av_vehicle, hav, htgt, htrk, hparse]
        | some n =>
          have h1 : IntegratedMonitor.process_av_vehicle is_av target vid edge
              r1 w1 s =
              { av_vehicles_tracked :=
                  s.av_vehicles_tracked ++ [vid ++ "_" ++ edge]
                av_signal_predictions := s.av_signal_predictions ++ [r1]
                speed_writes := s.speed_writes ++ [(vid, w1)] } := by
            simp [IntegratedMonitor.process_av_vehicle, hav, htgt, htrk,
              hparse]
          rw [h1]
          apply hmem
          simp
    · simp [IntegratedMonitor.process_av_vehicle, hav, htgt]

/-- Concrete instance of the body-level no-op: with the pair (av1,
edge 1) already tracked, the body leaves the state unchanged. -/
theorem process_av_vehicle_at_most_once_witness :
    IntegratedMonitor.process_av_vehicle true ["1"]
        "av1" "1" ⟨0, "av1", "1", "J1", 12, 40, 500, 30, 50, 40, 10, 11⟩ 50
        ⟨["av1_1"], [], []⟩ = ⟨["av1_1"], [], []⟩ :=
  (process_av_vehicle_at_most_once true ["1"] "av1" "1"
      ⟨0, "av1", "1", "J1", 12, 40, 500, 30, 50, 40, 10, 11⟩
      ⟨0, "av1", "1", "J1", 12, 40, 500, 30, 50, 40, 10, 11⟩ 50 50
      ⟨[], [], []⟩).2
    ⟨["av1_1"], [], []⟩ (by decide)

/-- Helper: the for loop of get_green_phase_duration returns the duration
of the phase at the first green position. -/
theorem first_green_duration_at (sig : Nat) :
    ∀ (phases : List AVSignalPredictor.Phase) (i : Nat),
      i < phases.length →
      AVSignalPredictor.phaseGreen (phases.getD i ⟨0, []⟩) sig = true →
      (∀ j, j < i →
        AVSignalPredictor.phaseGreen (phases.getD j ⟨0, []⟩) sig = false) →
      AVSignalPredictor.first_green_duration sig phases =
        (phases.getD i ⟨0, []⟩).duration := by
  intro phases
  induction phases with
  | nil => intro i hi; simp at hi
  | cons ph tl ih =>
    intro i hi hfound hmin
    by_cases hg : AVSignalPredictor.phaseGreen ph sig = true
    · cases i with
      | zero => simp [AVSignalPredictor.first_green_duration, hg]
      | succ i' =>
        have h0 := hmin 0 (by omega)
        simp only [List.getD_cons_zero] at h0
        rw [h0] at hg
        exact absurd hg (by simp)
    · cases i with
      | zero =>
        simp only [List.getD_cons_zero] at hfound
        exact absurd hfound hg
      | succ i' =>
        have hrec := ih i' (by simpa using hi)
          (by simpa using hfound)
          (fun j hj => by simpa using hmin (j + 1) (by omega))
        simp only [AVSignalPredictor.first_green_duration, List.getD_cons_succ]
        rw [if_neg hg]
        exact hrec

/-- Helper: with no green phase for the direction the for loop falls
through and returns 0. -/
theorem first_green_duration_none (sig : Nat) :
    ∀ phases : List AVSignalPredictor.Phase,
      (∀ ph ∈ phases, AVSignalPredictor.phaseGreen ph sig = false) →
      AVSignalPredictor.first_green_duration sig phases = 0 := by
  intro phases
  induction phases with
  | nil => intro _; rfl
  | cons ph tl ih =>
    intro h
    have h0 := h ph (by simp)
    simp only [AVSignalPredictor.first_green_duration]
    rw [if_neg (by simp [h0])]
    exact ih (fun q hq => h q (by simp [hq]))

/-- C9: with an empty program list each of calculate_time_to_green,
calculate_time_to_red and get_green_phase_duration returns the zero
sentinel 0.0 (without raising); and get_green_phase_duration returns the
duration of the first phase of the program in which the direction is
green, 0 when no phase is. -/
theorem timing_zero_sentinels (current_state : List Char) (cp : Nat)
    (t : ℚ) (sig : Nat) :
    AVSignalPredictor.calculate_time_to_green current_state cp t [] sig = 0 ∧
    AVSignalPredictor.calculate_time_to_red current_state cp t [] sig = 0 ∧
    AVSignalPredictor.get_green_phase_duration [] sig = 0 ∧
    (∀ (phases : List AVSignalPredictor.Phase)
      (rest : List (List AVSignalPredictor.Phase)) (i : Nat),
      i < phases.length →
      AVSignalPredictor.phaseGreen (phases.getD i ⟨0, []⟩) sig = true →
      (∀ j, j < i →
        AVSignalPredictor.phaseGreen (phases.getD j ⟨0, []⟩) sig = false) →
      AVSignalPredictor.get_green_phase_duration (phases :: rest) sig =
        (phases.getD i ⟨0, []⟩).duration) ∧
    (∀ (phases : List AVSignalPredictor.Phase)
      (rest : List (List AVSignalPredictor.Phase)),
      (∀ ph ∈ phases, AVSignalPredictor.phaseGreen ph sig = false) →
      AVSignalPredictor.get_green_phase_duration (phases :: rest) sig = 0) := by
  refine ⟨rfl, rfl, rfl, ?_, ?_⟩
  · intro phases rest i hi hfound hmin
    exact first_green_duration_at sig phases i hi hfound hmin
  · intro phases rest h
    exact first_green_duration_none sig phases h

/-- Witness for C9: the empty-program sentinel, a program whose second
phase is the first green one (duration 9), and a program with no green
phase for the direction. -/
theorem timing_zero_sentinels_witness :
    AVSignalPredictor.calculate_time_to_green ['G'] 0 5 [] 0 = 0 ∧
    AVSignalPredictor.get_green_phase_duration
      [[⟨7, ['r']⟩, ⟨9, ['G']⟩]] 0 = 9 ∧
    AVSignalPredictor.get_green_phase_duration [[⟨7, ['r']⟩]] 0 = 0 := by
  have h := timing_zero_sentinels ['G'] 0 5 0
  refine ⟨h.1, ?_, ?_⟩
  · have h4 := h.2.2.2.1 [⟨7, ['r']⟩, ⟨9, ['G']⟩] [] 1 (by norm_num)
      (by decide) (by decide)
    simpa using h4
  · exact h.2.2.2.2 [⟨7, ['r']⟩] [] (by decide)

/-- C10: every index produced by get_signal_direction_index is in
0..3 (a matching lane position i is reduced to i % 4 before being
returned and cached, and both defaults are 0 for positive edges and 2
for negative ones), provided every value already in the cache is in
0..3, and the updated cache keeps that invariant; the TraCIException
path (controlled_lanes = none) returns the default without caching it,
while the no-match default and the i % 4 result are cached. -/
theorem get_signal_direction_index_spec
    (cache : List ((String × Int) × Nat)) (jid : String) (eid : Int)
    (lanes? : Option (List String))
    (hcache : ∀ p ∈ cache, p.2 < 4) :
    ((AVSignalPredictor.get_signal_direction_index cache jid eid lanes?).1
        < 4 ∧
      ∀ p ∈ (AVSignalPredictor.get_signal_direction_index cache jid eid
        lanes?).2, p.2 < 4) ∧
    (cache.find? (fun p => p.1 == (jid, eid)) = none → lanes? = none →
      AVSignalPredictor.get_signal_direction_index cache jid eid lanes? =
        ((if eid > 0 then 0 else 2), cache)) ∧
    (∀ lanes, cache.find? (fun p => p.1 == (jid, eid)) = none →
      lanes? = some lanes →
      AVSignalPredictor.find_matching_lane lanes (decide (eid > 0)) 0
        = none →
      AVSignalPredictor.get_signal_direction_index cache jid eid lanes? =
        ((if eid > 0 then 0 else 2),
          ((jid, eid), if eid > 0 then 0 else 2) :: cache)) ∧
    (∀ lanes i, cache.find? (fun p => p.1 == (jid, eid)) = none →
      lanes? = some lanes →
      AVSignalPredictor.find_matching_lane lanes (decide (eid > 0)) 0
        = some i →
      AVSignalPredictor.get_signal_direction_index cache jid eid lanes? =
        (i % 4, ((jid, eid), i % 4) :: cache)) := by
  have hdef : (if eid > 0 then (0 : Nat) else 2) < 4 := by
    split_ifs <;> norm_num
  cases hfind : cache.find? (fun p => p.1 == (jid, eid)) with
  | some p =>
    have hp : p ∈ cache := List.mem_of_find?_eq_some hfind
    have hres : AVSignalPredictor.get_signal_direction_index cache jid eid
        lanes? = (p.2, cache) := by
      simp [AVSignalPredictor.get_signal_direction_index, hfind]
    refine ⟨⟨?_, ?_⟩, ?_, ?_, ?_⟩
    · rw [hres]; exact hcache p hp
    · rw [hres]; exact hcache
    · intro h; cases h
    · intro lanes h; cases h
    · intro lanes i h; cases h
  | none =>
    cases lanes? with
    | none =>
      have hres : AVSignalPredictor.get_signal_direction_index cache jid eid
          none = ((if eid > 0 then 0 else 2), cache) := by
        simp [AVSignalPredictor.get_signal_direction_index, hfind]
      refine ⟨⟨?_, ?_⟩, ?_, ?_, ?_⟩
      · rw [hres]; exact hdef
      · rw [hres]; exact hcache
      · intro _ _; exact hres
      · intro lanes _ h; cases h
      · intro lanes i _ h; cases h
    | some lanes =>
      cases hm : AVSignalPredictor.find_matching_lane lanes
          (decide (eid > 0)) 0 with
      | some i =>
        have hres : AVSignalPredictor.get_signal_direction_index cache jid
            eid (some lanes) = (i % 4, ((jid, eid), i % 4) :: cache) := by
          simp [AVSignalPredictor.get_signal_direction_index, hfind, hm]
        refine ⟨⟨?_, ?_⟩, ?_, ?_, ?_⟩
        · rw [hres]; exact Nat.mod_lt i (by norm_num)
        · rw [hres]
          intro p hp
          rcases List.mem_cons.mp hp with hp | hp
          · rw [hp]; exact Nat.mod_lt i (by norm_num)
          · exact hcache p hp
        · intro _ h; cases h
        · intro lanes2 _ h2 hm2
          cases h2
          rw [hm] at hm2; cases hm2
        · intro lanes2 i2 _ h2 hm2
          cases h2
          rw [hm] at hm2
          cases hm2
          exact hres
      | none =>
        have hres : AVSignalPredictor.get_signal_direction_index cache jid
            eid (some lanes) = ((if eid > 0 then 0 else 2),
              ((jid, eid), if eid > 0 then 0 else 2) :: cache) := by
          simp [AVSignalPredictor.get_signal_direction_index, hfind, hm]
        refine ⟨⟨?_, ?_⟩, ?_, ?_, ?_⟩
        · rw [hres]; exact hdef
        · rw [hres]
          intro p hp
          rcases List.mem_cons.mp hp with hp | hp
          · rw [hp]; exact hdef
          · exact hcache p hp
        · intro _ h; cases h
        · intro lanes2 _ h2 hm2
          cases h2
          exact hres
        · intro lanes2 i2 _ h2 hm2
          cases h2
          rw [hm] at hm2; cases hm2

/-- Witness for C10: a match on the first controlled lane (edge 6,
positive like edge 5) returns and caches 0 % 4 = 0; the exception path
for edge -3 returns the negative-direction default 2 and caches
nothing. -/
theorem get_signal_direction_index_spec_witness :
    AVSignalPredictor.get_signal_direction_index [] "J1" 5
        (some ["6_0", "-4_0"]) = (0, [(("J1", 5), 0)]) ∧
    AVSignalPredictor.get_signal_direction_index [] "J1" (-3) none
      = (2, []) := by
  constructor
  · have h := (get_signal_direction_index_spec [] "J1" 5
        (some ["6_0", "-4_0"]) (by simp)).2.2.2 ["6_0", "-4_0"] 0 rfl rfl
        (by decide)
    rw [h]
  · have h := (get_signal_direction_index_spec [] "J1" (-3) none
        (by simp)).2.1 rfl rfl
    rw [h]
    norm_num

/-- Helper: a cyclic step from a phase index below the cycle length never
lands back on it before a full cycle. -/
theorem add_mod_ne_self (n cp s : Nat) (hcp : cp < n) (hs1 : 1 ≤ s)
    (hsn : s < n) : (cp + s) % n ≠ cp := by
  rcases Nat.lt_or_ge (cp + s) n with h | h
  · rw [Nat.mod_eq_of_lt h]; omega
  · have h2 : cp + s - n < n := by omega
    rw [Nat.mod_eq_sub_mod h, Nat.mod_eq_of_lt h2]; omega

/-- Helper: stepping a reduced index is stepping the raw index. -/
theorem succ_mod_mod (a n : Nat) : (a % n + 1) % n = (a + 1) % n := by
  conv_lhs => rw [Nat.add_mod]
  conv_rhs => rw [Nat.add_mod]
  rw [Nat.mod_mod_of_dvd a dvd_rfl]

/-- Helper: getD at a valid index is a member of the list. -/
theorem getD_mem_of_lt (l : List AVSignalPredictor.Phase) (i : Nat)
    (d : AVSignalPredictor.Phase) (h : i < l.length) : l.getD i d ∈ l := by
  induction l generalizing i with
  | nil => simp at h
  | cons a tl ih =>
    cases i with
    | zero => simp
    | succ i2 =>
      simp only [List.getD_cons_succ]
      exact List.mem_cons_of_mem a (ih i2 (by simpa using h))

/-- Helper: the currently-green walk of calculate_time_to_green, started
at cyclic offset s from the current phase with enough fuel, stops at the
first green offset s + d and returns the accumulator plus the durations
of the offsets s, ..., s + d - 1. -/
theorem ttg_green_loop_walk (phases : List AVSignalPredictor.Phase)
    (sig cp : Nat) (t : ℚ) (hcp : cp < phases.length) :
    ∀ (d s : Nat) (acc : ℚ) (fuel : Nat), 1 ≤ s →
      s + d < phases.length → phases.length - s < fuel →
      (∀ j, j < s + d → s ≤ j →
        AVSignalPredictor.phaseGreen
          (phases.getD ((cp + j) % phases.length) ⟨0, []⟩) sig = false) →
      AVSignalPredictor.phaseGreen
        (phases.getD ((cp + (s + d)) % phases.length) ⟨0, []⟩) sig = true →
      AVSignalPredictor.ttg_green_loop phases sig cp t fuel
          ((cp + s) % phases.length) acc
        = acc + ∑ j in Finset.Ico s (s + d),
            (phases.getD ((cp + j) % phases.length) ⟨0, []⟩).duration := by
  intro d
  induction d with
  | zero =>
    intro s acc fuel hs1 hsn hfuel hmin hfound
    have hne : (cp + s) % phases.length ≠ cp :=
      add_mod_ne_self phases.length cp s hcp hs1 (by omega)
    simp only [Nat.add_zero] at hsn hfound
    cases fuel with
    | zero => omega
    | succ f =>
      simp only [AVSignalPredictor.ttg_green_loop]
      rw [if_neg hne, if_pos hfound]
      simp
  | succ d ih =>
    intro s acc fuel hs1 hsn hfuel hmin hfound
    have hne : (cp + s) % phases.length ≠ cp :=
      add_mod_ne_self phases.length cp s hcp hs1 (by omega)
    have hng : AVSignalPredictor.phaseGreen
        (phases.getD ((cp + s) % phases.length) ⟨0, []⟩) sig = false :=
      hmin s (by omega) (le_refl s)
    cases fuel with
    | zero => omega
    | succ f =>
      simp only [AVSignalPredictor.ttg_green_loop]
      rw [if_neg hne, if_neg (by rw [hng]; simp)]
      rw [succ_mod_mod]
      have hidx : cp + s + 1 = cp + (s + 1) := by omega
      rw [hidx]
      have hrec := ih (s + 1)
        (acc + (phases.getD ((cp + s) % phases.length) ⟨0, []⟩).duration) f
        (by omega) (by omega) (by omega)
        (fun j hj1 hj2 => hmin j (by omega) (by omega))
        (by have hb : s + 1 + d = s + (d + 1) := by omega
            rw [hb]; exact hfound)
      rw [hrec]
      have hb : s + 1 + d = s + (d + 1) := by omega
      rw [hb]
      rw [Finset.sum_eq_sum_Ico_succ_bot (by omega : s < s + (d + 1))]
      ring

/-- C7: when the queried direction is currently green and the first
future green offset (cyclically after the current phase) is k, the
function returns the time to the next switch plus the durations of the
k - 1 intervening phases; when that first green phase is not the
immediately following one, the result (with positive phase durations and
a nonnegative time to the next switch) is neither 0 nor the plain time
to the next switch t. -/
theorem calculate_time_to_green_currently_green
    (current_state : List Char) (cp : Nat) (t : ℚ)
    (phases : List AVSignalPredictor.Phase)
    (rest : List (List AVSignalPredictor.Phase)) (sig k : Nat)
    (hsig : sig < current_state.length)
    (hG : (current_state.getD sig ' ').toUpper = 'G')
    (hcp : cp < phases.length)
    (hk1 : 1 ≤ k) (hkn : k < phases.length)
    (hfound : AVSignalPredictor.phaseGreen
      (phases.getD ((cp + k) % phases.length) ⟨0, []⟩) sig = true)
    (hmin : ∀ j, j < k → 1 ≤ j → AVSignalPredictor.phaseGreen
      (phases.getD ((cp + j) % phases.length) ⟨0, []⟩) sig = false)
    (ht : 0 ≤ t)
    (hdur : ∀ ph ∈ phases, 0 < ph.duration) :
    AVSignalPredictor.calculate_time_to_green current_state cp t
        (phases :: rest) sig
      = t + ∑ j in Finset.Ico 1 k,
          (phases.getD ((cp + j) % phases.length) ⟨0, []⟩).duration ∧
    (AVSignalPredictor.phaseGreen
        (phases.getD ((cp + 1) % phases.length) ⟨0, []⟩) sig = false →
      AVSignalPredictor.calculate_time_to_green current_state cp t
          (phases :: rest) sig ≠ 0 ∧
      AVSignalPredictor.calculate_time_to_green current_state cp t
          (phases :: rest) sig ≠ t) := by
  obtain ⟨d, rfl⟩ : ∃ d, k = 1 + d := ⟨k - 1, by omega⟩
  have hn0 : phases.length ≠ 0 := by omega
  have hmain : AVSignalPredictor.calculate_time_to_green current_state cp t
      (phases :: rest) sig
      = t + ∑ j in Finset.Ico 1 (1 + d),
          (phases.getD ((cp + j) % phases.length) ⟨0, []⟩).duration := by
    simp only [AVSignalPredictor.calculate_time_to_green]
    rw [if_pos hsig, if_neg hn0, if_pos hG]
    exact ttg_green_loop_walk phases sig cp t hcp d 1 t phases.length
      (le_refl 1) hkn (by omega) hmin hfound
  refine ⟨hmain, fun hng => ?_⟩
  have hd1 : 1 ≤ d := by
    rcases Nat.eq_zero_or_pos d with h0 | h1
    · subst h0
      simp only [Nat.add_zero] at hfound
      rw [hfound] at hng
      cases hng
    · exact h1
  have hpos : 0 < ∑ j in Finset.Ico 1 (1 + d),
      (phases.getD ((cp + j) % phases.length) ⟨0, []⟩).duration := by
    apply Finset.sum_pos
    · intro j hj
      apply hdur
      exact getD_mem_of_lt phases ((cp + j) % phases.length) ⟨0, []⟩
        (Nat.mod_lt _ (by omega))
    · exact ⟨1, Finset.mem_Ico.mpr ⟨le_refl 1, by omega⟩⟩
  constructor
  · rw [hmain]; intro h0; linarith
  · rw [hmain]; intro h0; linarith

/-- Witness for C7: a six-phase program, direction 0 currently green
(current phase 0), time to next switch 12; the next green for direction
0 is phase 4, so the result is 12 + 5 + 30 + 5 = 52, which is neither 0
nor 12. -/
theorem calculate_time_to_green_currently_green_witness :
    AVSignalPredictor.calculate_time_to_green ['G', 'r'] 0 12
        [[⟨30, ['G', 'r']⟩, ⟨5, ['y', 'r']⟩, ⟨30, ['r', 'G']⟩,
          ⟨5, ['r', 'y']⟩, ⟨20, ['G', 'r']⟩, ⟨6, ['y', 'r']⟩]] 0 = 52 ∧
    AVSignalPredictor.calculate_time_to_green ['G', 'r'] 0 12
        [[⟨30, ['G', 'r']⟩, ⟨5, ['y', 'r']⟩, ⟨30, ['r', 'G']⟩,
          ⟨5, ['r', 'y']⟩, ⟨20, ['G', 'r']⟩, ⟨6, ['y', 'r']⟩]] 0 ≠ 0 ∧
    AVSignalPredictor.calculate_time_to_green ['G', 'r'] 0 12
        [[⟨30, ['G', 'r']⟩, ⟨5, ['y', 'r']⟩, ⟨30, ['r', 'G']⟩,
          ⟨5, ['r', 'y']⟩, ⟨20, ['G', 'r']⟩, ⟨6, ['y', 'r']⟩]] 0 ≠ 12 := by
  have h := calculate_time_to_green_currently_green ['G', 'r'] 0 12
    [⟨30, ['G', 'r']⟩, ⟨5, ['y', 'r']⟩, ⟨30, ['r', 'G']⟩,
      ⟨5, ['r', 'y']⟩, ⟨20, ['G', 'r']⟩, ⟨6, ['y', 'r']⟩] [] 0 4
    (by norm_num) (by decide) (by norm_num) (by norm_num) (by norm_num)
    (by decide) (by decide) (by norm_num) (by decide)
  refine ⟨?_, (h.2 (by decide)).1, (h.2 (by decide)).2⟩
  rw [h.1]
  norm_num [Finset.sum_Ico_succ_top]

/-- Helper: the currently-red walk of calculate_time_to_red, started at
cyclic offset s with enough fuel, stops at the first green offset s + d
and returns the accumulator plus the intervening durations, plus the
green phase's own duration, plus the cyclically following phase's
duration when that phase is yellow for the direction. -/
theorem ttr_red_loop_walk (phases : List AVSignalPredictor.Phase)
    (sig cp : Nat) (hcp : cp < phases.length) :
    ∀ (d s : Nat) (acc : ℚ) (fuel : Nat), 1 ≤ s →
      s + d < phases.length → phases.length - s < fuel →
      (∀ j, j < s + d → s ≤ j →
        AVSignalPredictor.phaseGreen
          (phases.getD ((cp + j) % phases.length) ⟨0, []⟩) sig = false) →
      AVSignalPredictor.phaseGreen
        (phases.getD ((cp + (s + d)) % phases.length) ⟨0, []⟩) sig = true →
      AVSignalPredictor.ttr_red_loop phases sig cp fuel
          ((cp + s) % phases.length) acc
        = acc + (∑ j in Finset.Ico s (s + d),
              (phases.getD ((cp + j) % phases.length) ⟨0, []⟩).duration)
          + (phases.getD ((cp + (s + d)) % phases.length) ⟨0, []⟩).duration
          + (if AVSignalPredictor.phaseYellow
                (phases.getD ((cp + (s + d) + 1) % phases.length) ⟨0, []⟩)
                sig = true
             then (phases.getD ((cp + (s + d) + 1) % phases.length)
               ⟨0, []⟩).duration
             else 0) := by
  intro d
  induction d with
  | zero =>
    intro s acc fuel hs1 hsn hfuel hmin hfound
    have hne : (cp + s) % phases.length ≠ cp :=
      add_mod_ne_self phases.length cp s hcp hs1 (by omega)
    simp only [Nat.add_zero] at hsn hfound ⊢
    cases fuel with
    | zero => omega
    | succ f =>
      simp only [AVSignalPredictor.ttr_red_loop]
      rw [if_neg hne, if_pos hfound, succ_mod_mod]
      rw [Finset.Ico_self, Finset.sum_empty]
      split_ifs <;> ring
  | succ d ih =>
    intro s acc fuel hs1 hsn hfuel hmin hfound
    have hne : (cp + s) % phases.length ≠ cp :=
      add_mod_ne_self phases.length cp s hcp hs1 (by omega)
    have hng : AVSignalPredictor.phaseGreen
        (phases.getD ((cp + s) % phases.length) ⟨0, []⟩) sig = false :=
      hmin s (by omega) (le_refl s)
    cases fuel with
    | zero => omega
    | succ f =>
      simp only [AVSignalPredictor.ttr_red_loop]
      rw [if_neg hne, if_neg (by rw [hng]; simp), succ_mod_mod]
      have hidx : cp + s + 1 = cp + (s + 1) := by omega
      rw [hidx]
      have hrec := ih (s + 1)
        (acc + (phases.getD ((cp + s) % phases.length) ⟨0, []⟩).duration) f
        (by omega) (by omega) (by omega)
        (fun j hj1 hj2 => hmin j (by omega) (by omega))
        (by have hb : s + 1 + d = s + (d + 1) := by omega
            rw [hb]; exact hfound)
      rw [hrec]
      have hb : s + 1 + d = s + (d + 1) := by omega
      rw [hb]
      rw [Finset.sum_eq_sum_Ico_succ_bot (by omega : s < s + (d + 1))]
      ring

/-- C8: calculate_time_to_red is asymmetric in the current color.  When
the direction is currently green, the result is the remaining time in
the current phase plus the immediately following phase's duration when
that phase is yellow for the direction.  When the direction is
currently red and the first future green offset is k, the result spans
past the green-then-red transition: the time accumulated up to that
green phase, plus the green phase's duration, plus the cyclically
following phase's duration when it is yellow for the direction. -/
theorem calculate_time_to_red_cases
    (current_state : List Char) (cp : Nat) (t : ℚ)
    (phases : List AVSignalPredictor.Phase)
    (rest : List (List AVSignalPredictor.Phase)) (sig : Nat)
    (hsig : sig < current_state.length)
    (hcp : cp < phases.length) :
    ((current_state.getD sig ' ').toUpper = 'G' →
      AVSignalPredictor.calculate_time_to_red current_state cp t
          (phases :: rest) sig
        = t + (if AVSignalPredictor.phaseYellow
              (phases.getD ((cp + 1) % phases.length) ⟨0, []⟩) sig = true
            then (phases.getD ((cp + 1) % phases.length) ⟨0, []⟩).duration
            else 0)) ∧
    (∀ k, (current_state.getD sig ' ').toUpper = 'R' → 1 ≤ k →
      k < phases.length →
      AVSignalPredictor.phaseGreen
        (phases.getD ((cp + k) % phases.length) ⟨0, []⟩) sig = true →
      (∀ j, j < k → 1 ≤ j → AVSignalPredictor.phaseGreen
        (phases.getD ((cp + j) % phases.length) ⟨0, []⟩) sig = false) →
      AVSignalPredictor.calculate_time_to_red current_state cp t
          (phases :: rest) sig
        = t + (∑ j in Finset.Ico 1 k,
              (phases.getD ((cp + j) % phases.length) ⟨0, []⟩).duration)
          + (phases.getD ((cp + k) % phases.length) ⟨0, []⟩).duration
          + (if AVSignalPredictor.phaseYellow
                (phases.getD ((cp + k + 1) % phases.length) ⟨0, []⟩) sig
                = true
             then (phases.getD ((cp + k + 1) % phases.length)
               ⟨0, []⟩).duration
             else 0)) := by
  have hn0 : phases.length ≠ 0 := by omega
  constructor
  · intro hG
    simp only [AVSignalPredictor.calculate_time_to_red]
    rw [if_pos hsig, hG]
    rw [if_neg (by decide), if_pos rfl, if_neg hn0]
    split_ifs <;> ring
  · intro k hR hk1 hkn hfound hmin
    obtain ⟨d, rfl⟩ : ∃ d, k = 1 + d := ⟨k - 1, by omega⟩
    simp only [AVSignalPredictor.calculate_time_to_red]
    rw [if_pos hsig, hR, if_pos rfl, if_neg hn0]
    rw [ttr_red_loop_walk phases sig cp hcp d 1 t phases.length
      (le_refl 1) hkn (by omega) hmin hfound]

/-- Witness for C8: in a four-phase program, direction 0 currently green
(phase 0, 7 s to the switch, following yellow 5 s) gives 12; direction
0 currently red (phase 2, 9 s to the switch, one intervening phase of
5 s, green phase of 30 s, following yellow of 5 s) gives 49. -/
theorem calculate_time_to_red_cases_witness :
    AVSignalPredictor.calculate_time_to_red ['G', 'r'] 0 7
        [[⟨30, ['G', 'r']⟩, ⟨5, ['y', 'r']⟩, ⟨30, ['r', 'G']⟩,
          ⟨5, ['r', 'y']⟩]] 0 = 12 ∧
    AVSignalPredictor.calculate_time_to_red ['r', 'G'] 2 9
        [[⟨30, ['G', 'r']⟩, ⟨5, ['y', 'r']⟩, ⟨30, ['r', 'G']⟩,
          ⟨5, ['r', 'y']⟩]] 0 = 49 := by
  constructor
  · have h := (calculate_time_to_red_cases ['G', 'r'] 0 7
      [⟨30, ['G', 'r']⟩, ⟨5, ['y', 'r']⟩, ⟨30, ['r', 'G']⟩, ⟨5, ['r', 'y']⟩]
      [] 0 (by norm_num) (by norm_num)).1 (by decide)
    rw [h]
    split_ifs with hy
    · norm_num
    · exact absurd (by decide) hy
  · have h := (calculate_time_to_red_cases ['r', 'G'] 2 9
      [⟨30, ['G', 'r']⟩, ⟨5, ['y', 'r']⟩, ⟨30, ['r', 'G']⟩, ⟨5, ['r', 'y']⟩]
      [] 0 (by norm_num) (by norm_num)).2 2 (by decide) (by norm_num)
      (by norm_num) (by decide) (by decide)
    rw [h]
    split_ifs with hy
    · norm_num [Finset.sum_Ico_succ_top]
    · exact absurd (by decide) hy

/-- C6: the claimed at-most-once property fails across calls of
update_av_signal_monitoring, evaluated at a failing input.  AV vehicle
dyn_2000 drives on target edge 5 and stays in the simulation for two
consecutive calls.  The first call appends one prediction record and
one speed write and adds the tracking key dyn_2000_5, but the
end-of-call cleanup truncates that key at its first underscore to dyn,
finds no vehicle dyn in the current vehicle list, and removes the key
although the vehicle is still present (second conjunct).  The second
call on the very same (vehicle, link) pair therefore appends a second
prediction record and performs a second speed write. -/
theorem update_av_signal_monitoring_repeats :
    (IntegratedMonitor.update_av_signal_monitoring_tick true ["5"]
        ["dyn_2000"] "dyn_2000" "5"
        ⟨0, "dyn_2000", "5", "J0", 12, 40, 500, 30, 50, 40, 10, 11⟩ 50
        ⟨[], [], []⟩).av_signal_predictions.length = 1 ∧
    (IntegratedMonitor.update_av_signal_monitoring_tick true ["5"]
        ["dyn_2000"] "dyn_2000" "5"
        ⟨0, "dyn_2000", "5", "J0", 12, 40, 500, 30, 50, 40, 10, 11⟩ 50
        ⟨[], [], []⟩).av_vehicles_tracked = [] ∧
    (IntegratedMonitor.update_av_signal_monitoring_tick true ["5"]
        ["dyn_2000"] "dyn_2000" "5"
        ⟨1, "dyn_2000", "5", "J0", 11, 39, 500, 30, 50, 50, 0, 13⟩ 50
        (IntegratedMonitor.update_av_signal_monitoring_tick true ["5"]
          ["dyn_2000"] "dyn_2000" "5"
          ⟨0, "dyn_2000", "5", "J0", 12, 40, 500, 30, 50, 40, 10, 11⟩ 50
          ⟨[], [], []⟩)).av_signal_predictions.length = 2 ∧
    (IntegratedMonitor.update_av_signal_monitoring_tick true ["5"]
        ["dyn_2000"] "dyn_2000" "5"
        ⟨1, "dyn_2000", "5", "J0", 11, 39, 500, 30, 50, 50, 0, 13⟩ 50
        (IntegratedMonitor.update_av_signal_monitoring_tick true ["5"]
          ["dyn_2000"] "dyn_2000" "5"
          ⟨0, "dyn_2000", "5", "J0", 12, 40, 500, 30, 50, 40, 10, 11⟩ 50
          ⟨[], [], []⟩)).speed_writes.length = 2 := by
  decide
